import Mathlib

/-!
Shallow embedding of the NCAA basketball v2.2 prediction engine
(src/utils/v2PredictionEngine.js).  JavaScript numbers are modelled as exact
rationals.  Absent (or non-numeric) JavaScript values are modelled as Option
with none.  The JavaScript idioms of the source are reproduced by small
helpers: jsOr models the pattern value-or-default written with the JS or
operator (which also replaces a zero value by the default), optGE models a
comparison against a possibly-undefined field (false when undefined), winRate
models the conditional win-rate expressions (a 0-0 record divides zero by
zero, giving NaN, modelled as none, on which every comparison is false), and
jsFalsyStr models string falsiness (undefined or the empty string).
-/

namespace V2

/-- Win/loss split record, the shape of the homeRecord, awayRecord and
neutralRecord objects of the source. -/
structure WinLossRecord where
  wins : ℚ
  losses : ℚ
deriving DecidableEq

/-- Validated team profile: the four required fields hold values (the
validation block of calculateV2Prediction guarantees them), the optional
fields keep the possibly-absent JavaScript shape. -/
structure Team where
  team : String
  ppg : ℚ
  pointsAllowed : ℚ
  defenseRank : ℚ
  fieldGoalPct : Option ℚ := none
  ppgRank : Option ℚ := none
  netRank : Option ℚ := none
  winStreak : Option ℚ := none
  lossStreak : Option ℚ := none
  last5PPG : Option ℚ := none
  firstHalfPPG : Option ℚ := none
  homeRecord : Option WinLossRecord := none
  awayRecord : Option WinLossRecord := none
  neutralRecord : Option WinLossRecord := none
deriving DecidableEq

/-- Raw caller-supplied team object, before the validation block runs. -/
structure RawTeam where
  team : Option String := none
  ppg : Option ℚ := none
  pointsAllowed : Option ℚ := none
  defenseRank : Option ℚ := none
  fieldGoalPct : Option ℚ := none
  ppgRank : Option ℚ := none
  netRank : Option ℚ := none
  winStreak : Option ℚ := none
  lossStreak : Option ℚ := none
  last5PPG : Option ℚ := none
  firstHalfPPG : Option ℚ := none
  homeRecord : Option WinLossRecord := none
  awayRecord : Option WinLossRecord := none
  neutralRecord : Option WinLossRecord := none
deriving DecidableEq

/-- Game location from the perspective of team 1.  The source compares the
string field gameContext.team1Location against the literals home and away;
every other value (including an absent field) takes the final else branch,
which is the neutral-site branch, so neutral stands for that whole class. -/
inductive Location
  | home
  | away
  | neutral
deriving DecidableEq

/-- Game context object. -/
structure GameContext where
  team1Location : Location := Location.neutral
  isConferenceGame : Bool := false
  daysRest : Option ℚ := none
  travelDistance : Option ℚ := none
  missingTopScorer : Bool := false
  missingPointGuard : Bool := false
  missingRolePlayer : Bool := false
deriving DecidableEq

/-- JavaScript value-or-default via the JS or operator on an optional numeric
field: an absent field or a zero value both fall back to the default. -/
def jsOr (v : Option ℚ) (d : ℚ) : ℚ :=
  match v with
  | none => d
  | some x => if x = 0 then d else x

/-- JavaScript comparison c less-or-equal v where v may be undefined: a
comparison against undefined is false. -/
def optGE (v : Option ℚ) (c : ℚ) : Bool :=
  match v with
  | none => false
  | some x => c ≤ x

/-- JavaScript truthiness of an optional numeric field. -/
def jsTruthy (v : Option ℚ) : Bool :=
  match v with
  | none => false
  | some x => x ≠ 0

/-- Win rate of an optional split record: an absent record defaults to 0.5, a
record with zero games divides zero by zero giving NaN (modelled as none),
otherwise wins / (wins + losses). -/
def winRate (r : Option WinLossRecord) : Option ℚ :=
  match r with
  | none => some 0.5
  | some s => if s.wins + s.losses = 0 then none else some (s.wins / (s.wins + s.losses))

/-- Comparison c less-or-equal x for a possibly-NaN rate (false on NaN). -/
def rGE (x : Option ℚ) (c : ℚ) : Bool :=
  match x with
  | none => false
  | some v => c ≤ v

/-- Comparison x strictly-less-than c for a possibly-NaN rate (false on NaN). -/
def rLT (x : Option ℚ) (c : ℚ) : Bool :=
  match x with
  | none => false
  | some v => v < c

/-- Strict equality of a possibly-NaN rate with zero (false on NaN). -/
def rEQ0 (x : Option ℚ) : Bool :=
  match x with
  | none => false
  | some v => v = 0

/-- JavaScript string falsiness: undefined or the empty string. -/
def jsFalsyStr : Option String → Bool
  | none => true
  | some s => s = ""

/-- JavaScript Math.round: floor of x + 1/2 (halves round toward positive
infinity). -/
def jsRound (x : ℚ) : ℤ := (x + 1 / 2).floor

/-- Pair of per-team rational values, the shape of the objects with fields
team1 and team2 that the stage functions of the source return. -/
structure TeamPair where
  team1 : ℚ
  team2 : ℚ
deriving DecidableEq

/-- Possession-rate midpoint for the 5 pace buckets (STEP 2 of the source). -/
def getPaceCategory (ppg : ℚ) : ℚ :=
  if 85 ≤ ppg then 78
  else if 78 ≤ ppg then 73.5
  else if 70 ≤ ppg then 69.5
  else if 65 ≤ ppg then 66
  else 63

/-- Pace differential category (STEP 2). -/
inductive DiffCategory
  | extreme
  | major
  | moderate
  | neutral
deriving DecidableEq

/-- Bucket the absolute possession-rate gap (STEP 2). -/
def getDiffCategory (paceDiff : ℚ) : DiffCategory :=
  if 16 ≤ paceDiff then .extreme
  else if 11 ≤ paceDiff then .major
  else if 6 ≤ paceDiff then .moderate
  else .neutral

/-- Defensive quality classification used by the pace stage (v2.2 four-way
classification of STEP 2). -/
inductive PaceDefCategory
  | elite
  | veryGood
  | good
  | averagePoor
deriving DecidableEq

/-- Classify a defense rank for the pace stage (STEP 2). -/
def getDefCategory (defRank : ℚ) : PaceDefCategory :=
  if defRank ≤ 30 then .elite
  else if defRank ≤ 70 then .veryGood
  else if defRank ≤ 110 then .good
  else .averagePoor

/-- Column of the pace matrix (STEP 2). -/
inductive PaceMatrixColumn
  | bothEliteGood
  | oneGood
  | bothAveragePoor
deriving DecidableEq

/-- The pace adjustment matrix of STEP 2, as min/max pairs. -/
def paceMatrix : DiffCategory → PaceMatrixColumn → ℚ × ℚ
  | .extreme, .bothEliteGood => (2, 4)
  | .extreme, .oneGood => (6, 8)
  | .extreme, .bothAveragePoor => (10, 12)
  | .major, .bothEliteGood => (2, 4)
  | .major, .oneGood => (5, 7)
  | .major, .bothAveragePoor => (8, 10)
  | .moderate, .bothEliteGood => (1, 3)
  | .moderate, .oneGood => (4, 6)
  | .moderate, .bothAveragePoor => (6, 8)
  | .neutral, .bothEliteGood => (1, 1)
  | .neutral, .oneGood => (2, 3)
  | .neutral, .bothAveragePoor => (3, 5)

/-- Membership of a pace-stage defense category in the Elite/VeryGood/Good
group that the v2.2 category logic of STEP 2 tests. -/
def isGoodDef (d : PaceDefCategory) : Bool :=
  d = .elite ∨ d = .veryGood ∨ d = .good

/-- STEP 2: pace adjustment.  The scaled adjustment is split 60/40 in favor of
the faster team. -/
def calculatePaceAdjustment (team1 team2 : Team) : TeamPair :=
  let pace1 := getPaceCategory team1.ppg
  let pace2 := getPaceCategory team2.ppg
  let paceDiff := |pace1 - pace2|
  let diffCategory := getDiffCategory paceDiff
  let def1 := getDefCategory team1.defenseRank
  let def2 := getDefCategory team2.defenseRank
  let category :=
    if isGoodDef def1 && isGoodDef def2 then PaceMatrixColumn.bothEliteGood
    else if isGoodDef def1 || isGoodDef def2 then PaceMatrixColumn.oneGood
    else PaceMatrixColumn.bothAveragePoor
  let range := paceMatrix diffCategory category
  let adjustment := (range.1 + range.2) / 2
  let scaledAdjustment := adjustment * 0.65
  if pace2 < pace1 then ⟨scaledAdjustment * 0.6, scaledAdjustment * 0.4⟩
  else ⟨scaledAdjustment * 0.4, scaledAdjustment * 0.6⟩

/-- STEP 3: recent form adjustment.  Streak comparisons on absent fields are
false in JavaScript; the trend branch runs only when both last5PPG and ppg
are truthy. -/
def calculateFormAdjustment (team : Team) : ℚ :=
  let streak : ℚ :=
    if optGE team.winStreak 5 then 3.5
    else if optGE team.winStreak 3 then 2.5
    else if optGE team.winStreak 1 then 1
    else if optGE team.lossStreak 5 then -9
    else if optGE team.lossStreak 3 then -6
    else if optGE team.lossStreak 1 then -1.5
    else 0
  let trend : ℚ :=
    match team.last5PPG with
    | some l5 =>
      if l5 ≠ 0 ∧ team.ppg ≠ 0 then
        if 5 ≤ l5 - team.ppg then 2.5
        else if l5 - team.ppg ≤ -5 then -2.5
        else 0
      else 0
    | none => 0
  streak + trend

/-- Offense tier of the defense-quality stage (STEP 4). -/
inductive OffenseTier
  | elite
  | good
  | average
  | poor
deriving DecidableEq

/-- Defense tier of the defense-quality stage (v2.2 seven-way classification,
STEP 4). -/
inductive DefenseTier
  | elite
  | veryGood
  | good
  | average
  | belowAvg
  | poor
  | terrible
deriving DecidableEq

/-- Classify an offense from rank by PPG and field-goal percentage (STEP 4).
An absent ppgRank defaults to 200 and an absent field-goal percentage to
0.45 via the JS or operator. -/
def classifyOffense (team : Team) : OffenseTier :=
  let ppgRank := jsOr team.ppgRank 200
  let fgPct := jsOr team.fieldGoalPct 0.45
  if ppgRank ≤ 100 ∧ 0.48 ≤ fgPct then .elite
  else if ppgRank ≤ 200 ∧ 0.45 ≤ fgPct then .good
  else if ppgRank ≤ 300 then .average
  else .poor

/-- Classify a defense rank into the seven v2.2 tiers (STEP 4). -/
def getDefRank (rank : ℚ) : DefenseTier :=
  if rank ≤ 30 then .elite
  else if rank ≤ 70 then .veryGood
  else if rank ≤ 110 then .good
  else if rank ≤ 180 then .average
  else if rank ≤ 250 then .belowAvg
  else if rank ≤ 320 then .poor
  else .terrible

/-- The v2.2 defense impact matrix (STEP 4).  No cell is zero, so the
JS or-zero guard of the source on the lookup never changes the value. -/
def defenseImpactMatrix : OffenseTier → DefenseTier → ℚ
  | .elite, .elite => -13.5
  | .elite, .veryGood => -9
  | .elite, .good => -5
  | .elite, .average => 1
  | .elite, .belowAvg => 4
  | .elite, .poor => 5
  | .elite, .terrible => 5
  | .good, .elite => -16.5
  | .good, .veryGood => -11
  | .good, .good => -7
  | .good, .average => -1
  | .good, .belowAvg => 3
  | .good, .poor => 3
  | .good, .terrible => 3
  | .average, .elite => -19
  | .average, .veryGood => -13.5
  | .average, .good => -9
  | .average, .average => -1.5
  | .average, .belowAvg => 1
  | .average, .poor => 1
  | .average, .terrible => 1
  | .poor, .elite => -22.5
  | .poor, .veryGood => -16.5
  | .poor, .good => -11
  | .poor, .average => -7
  | .poor, .belowAvg => -1
  | .poor, .poor => -1
  | .poor, .terrible => -1

/-- First rule of the revised two-good-defenses correction: both raw defense
ranks at most 70 (STEP 4). -/
def bothTop70 (r1 r2 : ℚ) : Bool :=
  decide (r1 ≤ 70 ∧ r2 ≤ 70)

/-- Second rule: both raw defense ranks in the 71 to 110 band (STEP 4). -/
def bothGood71To110 (r1 r2 : ℚ) : Bool :=
  decide (71 ≤ r1 ∧ r1 ≤ 110 ∧ 71 ≤ r2 ∧ r2 ≤ 110)

/-- Third rule: both raw defense ranks in the 111 to 180 band (STEP 4); the
source applies no penalty in this case. -/
def bothAverage111To180 (r1 r2 : ℚ) : Bool :=
  decide (111 ≤ r1 ∧ r1 ≤ 180 ∧ 111 ≤ r2 ∧ r2 ≤ 180)

/-- Fourth rule: one raw defense rank at most 70 and the other in the 71 to
150 band (STEP 4). -/
def oneTop70Other71To150 (r1 r2 : ℚ) : Bool :=
  decide ((r1 ≤ 70 ∧ 71 ≤ r2 ∧ r2 ≤ 150) ∨ (r2 ≤ 70 ∧ 71 ≤ r1 ∧ r1 ≤ 150))

/-- Total additional penalty of the revised two-good-defenses rule (STEP 4);
the stage adds half of it to each team. -/
def mutualDefensePenalty (r1 r2 : ℚ) : ℚ :=
  if bothTop70 r1 r2 then -11
  else if bothGood71To110 r1 r2 then -6
  else if bothAverage111To180 r1 r2 then 0
  else if oneTop70Other71To150 r1 r2 then -4
  else 0

/-- STEP 4: defense quality adjustment, matrix lookup plus the evenly split
two-good-defenses correction. -/
def calculateDefenseQualityAdjustment (team1 team2 : Team) : TeamPair :=
  let adj1 := defenseImpactMatrix (classifyOffense team1) (getDefRank team2.defenseRank)
  let adj2 := defenseImpactMatrix (classifyOffense team2) (getDefRank team1.defenseRank)
  let additionalPenalty := mutualDefensePenalty team1.defenseRank team2.defenseRank
  ⟨adj1 + additionalPenalty / 2, adj2 + additionalPenalty / 2⟩

/-- Road-record weakness test of STEP 5: away win rate below 0.25, or a
present away record with zero wins and at least three losses. -/
def weakRoadRecord (awayWinRate : Option ℚ) (record : Option WinLossRecord) : Bool :=
  rLT awayWinRate 0.25 ||
    (match record with
     | some a => decide (a.wins = 0) && decide (3 ≤ a.losses)
     | none => false)

/-- Tiered road penalty of STEP 5, keyed by the road record quality and the
overall strength rank of the home opponent. -/
def roadPenalty (awayWinRate : Option ℚ) (record : Option WinLossRecord)
    (opponentNet : ℚ) : ℚ :=
  if weakRoadRecord awayWinRate record then
    if opponentNet ≤ 50 then -6 else if opponentNet ≤ 150 then -5 else -4
  else if rLT awayWinRate 0.60 then
    if opponentNet ≤ 50 then -4 else if opponentNet ≤ 150 then -3 else -2.5
  else
    if opponentNet ≤ 50 then -2 else if opponentNet ≤ 150 then -1.5 else -1

/-- Home bonus of STEP 5, tiered by home win rate. -/
def homeBonus (homeWinRate : Option ℚ) : ℚ :=
  if rGE homeWinRate 0.75 then 3.5
  else if rGE homeWinRate 0.50 then 2.5
  else 1.5

/-- Neutral-site adjustment of STEP 5; the winless case is tested before the
losing-record case. -/
def neutralAdjustment (rate : Option ℚ) : ℚ :=
  if rGE rate 0.95 then 1.5
  else if rGE rate 0.60 then 0.5
  else if rEQ0 rate then -2.5
  else if rLT rate 0.50 then -1.5
  else 0

/-- STEP 5: home/away/neutral location adjustment.  An absent opponent
overall-strength rank defaults to 100 via the JS or operator. -/
def calculateLocationAdjustment (team1 team2 : Team) (context : GameContext) : TeamPair :=
  if context.team1Location = Location.home then
    let homeWinRate := winRate team1.homeRecord
    let awayWinRate := winRate team2.awayRecord
    let opponentNet := jsOr team1.netRank 100
    ⟨homeBonus homeWinRate, roadPenalty awayWinRate team2.awayRecord opponentNet⟩
  else if context.team1Location = Location.away then
    let awayWinRate := winRate team1.awayRecord
    let opponentNet := jsOr team2.netRank 100
    let homeWinRate := winRate team2.homeRecord
    ⟨roadPenalty awayWinRate team1.awayRecord opponentNet, homeBonus homeWinRate⟩
  else
    ⟨neutralAdjustment (winRate team1.neutralRecord),
     neutralAdjustment (winRate team2.neutralRecord)⟩

/-- STEP 6: flat conference game adjustment. -/
def calculateConferenceAdjustment (context : GameContext) : ℚ :=
  if context.isConferenceGame then -11 else 0

/-- STEP 7: blowout cruise control penalty by preliminary margin.  The second
parameter of the source (the winning team index) is unused there and omitted
here. -/
def calculateCruiseControl (margin : ℚ) : ℚ :=
  if 30 ≤ margin then -13.5
  else if 25 ≤ margin then -11
  else if 20 ≤ margin then -8.5
  else if 15 ≤ margin then -5.5
  else 0

/-- STEP 8: elite offense caps and poor offense floors.  The chain reproduces
the early returns of the source: with PPG at least 85 the branch for a
defense rank above 100 is tested before the branch for a rank of at least
300, so the latter can never fire; when no cap branch returns, the
poor-offense condition is tested (it requires PPG at most 65, so it is
unreachable after a PPG of at least 85, exactly as in the source). -/
def applyEliteCaps (score : ℚ) (team opponent : Team) : ℚ :=
  if 85 ≤ team.ppg ∧ 100 < opponent.defenseRank then min score 82.5
  else if 85 ≤ team.ppg ∧ opponent.defenseRank ≤ 50 then min score 74
  else if 85 ≤ team.ppg ∧ 300 ≤ opponent.defenseRank then min score 90
  else if team.ppg ≤ 65 ∧ jsOr team.fieldGoalPct 0.45 < 0.40 then
    if opponent.defenseRank ≤ 30 then max score 47.5 else max score 52.5
  else score

/-- STEP 9: contextual adjustments.  The days of rest are read through the JS
or operator with default 2, so a value of 0 also becomes 2.  The travel
branch requires a truthy travel distance of at least 1000. -/
def calculateContextualAdjustments (team : Team) (context : GameContext) : ℚ :=
  let daysRest := jsOr context.daysRest 2
  let rest : ℚ :=
    if daysRest = 0 then -4
    else if daysRest = 1 then -1.5
    else if 4 ≤ daysRest ∧ daysRest ≤ 7 then 1.5
    else if 8 ≤ daysRest then 2.5
    else 0
  let travel : ℚ :=
    if jsTruthy context.travelDistance && optGE context.travelDistance 1000 then -1.5 else 0
  let injuries : ℚ :=
    (if context.missingTopScorer then -6.5 else 0) +
    (if context.missingPointGuard then -4 else 0) +
    (if context.missingRolePlayer then -2.5 else 0)
  rest + travel + injuries

/-- Result record of STEP 11 (extreme mismatch controller). -/
structure ExtremeMismatchResult where
  adjustments : TeamPair
  skipCruiseControl : Bool
  skipEliteCaps : Bool
  applyFloor : Bool
  applyMaxCap : Bool
  floorValue : ℚ
deriving DecidableEq

/-- Post-losing-streak statement game bonus of STEP 11, condition 11C: a team
on a loss streak of at least 3, facing an opponent ranked in the bottom-50
band, while itself better ranked, gains 10 points. -/
def statementGameBonus (team opponent : Team) : ℚ :=
  let netT := jsOr team.netRank 150
  let netO := jsOr opponent.netRank 150
  if 3 ≤ jsOr team.lossStreak 0 ∧ 314 ≤ netO ∧ netT < netO then 10 else 0

/-- STEP 11: extreme mismatch controller.  An absent overall-strength rank
defaults to 150 via the JS or operator.  The two score parameters of the
source function are unused there and omitted here. -/
def calculateExtremeMismatch (team1 team2 : Team) : ExtremeMismatchResult :=
  let net1 := jsOr team1.netRank 150
  let net2 := jsOr team2.netRank 150
  let netGap := |net1 - net2|
  let isTeam1Bottom10 : Bool := decide (356 ≤ net1)
  let isTeam2Bottom10 : Bool := decide (356 ≤ net2)
  let bottom10 : Bool := isTeam1Bottom10 || isTeam2Bottom10
  let extremeGap : Bool := decide (200 ≤ netGap) && !isTeam1Bottom10 && !isTeam2Bottom10
  let bottom10Adj : TeamPair :=
    if isTeam1Bottom10 && !isTeam2Bottom10 then ⟨-12.5, 12.5⟩
    else if isTeam2Bottom10 && !isTeam1Bottom10 then ⟨12.5, -12.5⟩
    else ⟨0, 0⟩
  let gapAdj : TeamPair :=
    if extremeGap then
      if net1 < net2 then ⟨17.5 / 2, -(17.5 / 2)⟩ else ⟨-(17.5 / 2), 17.5 / 2⟩
    else ⟨0, 0⟩
  { adjustments :=
      ⟨bottom10Adj.team1 + gapAdj.team1 + statementGameBonus team1 team2,
       bottom10Adj.team2 + gapAdj.team2 + statementGameBonus team2 team1⟩,
    skipCruiseControl := bottom10 || extremeGap,
    skipEliteCaps := bottom10,
    applyFloor := bottom10,
    applyMaxCap := bottom10,
    floorValue := 48 }

/-- First-half projection record (STEP 10). -/
structure FirstHalfResult where
  team1 : ℤ
  team2 : ℤ
  total : ℤ
deriving DecidableEq

/-- First-half share of a team (STEP 10): the fast/slow starter branch runs
only when both firstHalfPPG and ppg are truthy. -/
def firstHalfPct (team : Team) : ℚ :=
  match team.firstHalfPPG with
  | some fh =>
    if fh ≠ 0 ∧ team.ppg ≠ 0 then
      if 0.52 ≤ fh / team.ppg then 0.50
      else if fh / team.ppg < 0.46 then 0.46
      else 0.48
    else 0.48
  | none => 0.48

/-- STEP 10: first-half projections from the rounded full-game scores. -/
def calculateFirstHalf (team1Full team2Full : ℤ) (team1 team2 : Team) : FirstHalfResult :=
  let team1FirstHalf := jsRound ((team1Full : ℚ) * firstHalfPct team1)
  let team2FirstHalf := jsRound ((team2Full : ℚ) * firstHalfPct team2)
  ⟨team1FirstHalf, team2FirstHalf, team1FirstHalf + team2FirstHalf⟩

/-- STEPS 1 to 6: base expected points, pace, form, defense, location and the
evenly split conference adjustment, summed into the preliminary scores. -/
def prelimScores (team1 team2 : Team) (gameContext : GameContext) : ℚ × ℚ :=
  let team1Base := (team1.ppg + team2.pointsAllowed) / 2
  let team2Base := (team2.ppg + team1.pointsAllowed) / 2
  let paceAdjustment := calculatePaceAdjustment team1 team2
  let team1Form := calculateFormAdjustment team1
  let team2Form := calculateFormAdjustment team2
  let defenseAdjustments := calculateDefenseQualityAdjustment team1 team2
  let locationAdjustments := calculateLocationAdjustment team1 team2 gameContext
  let conferenceAdjustment := calculateConferenceAdjustment gameContext
  let t1 := team1Base + paceAdjustment.team1 + team1Form + defenseAdjustments.team1 +
    locationAdjustments.team1
  let t2 := team2Base + paceAdjustment.team2 + team2Form + defenseAdjustments.team2 +
    locationAdjustments.team2
  if conferenceAdjustment ≠ 0 then
    (t1 + conferenceAdjustment / 2, t2 + conferenceAdjustment / 2)
  else (t1, t2)

/-- STEP 7 application: the cruise control penalty is added to the currently
leading side, unless the stage is skipped or the penalty is zero. -/
def cruiseStage (em : ExtremeMismatchResult) (s : ℚ × ℚ) : ℚ × ℚ :=
  if em.skipCruiseControl then s
  else
    let cruiseControl := calculateCruiseControl |s.1 - s.2|
    if cruiseControl ≠ 0 then
      if s.2 < s.1 then (s.1 + cruiseControl, s.2) else (s.1, s.2 + cruiseControl)
    else s

/-- STEP 8 application: elite caps for both teams, unless skipped. -/
def capsStage (em : ExtremeMismatchResult) (team1 team2 : Team) (s : ℚ × ℚ) : ℚ × ℚ :=
  if em.skipEliteCaps then s
  else (applyEliteCaps s.1 team1 team2, applyEliteCaps s.2 team2 team1)

/-- STEP 9 application: contextual adjustments for both teams. -/
def contextualStage (team1 team2 : Team) (gameContext : GameContext) (s : ℚ × ℚ) : ℚ × ℚ :=
  (s.1 + calculateContextualAdjustments team1 gameContext,
   s.2 + calculateContextualAdjustments team2 gameContext)

/-- STEP 11 application: the stored extreme mismatch deltas are added. -/
def extremeApplyStage (em : ExtremeMismatchResult) (s : ℚ × ℚ) : ℚ × ℚ :=
  (s.1 + em.adjustments.team1, s.2 + em.adjustments.team2)

/-- Floor application for bottom-10 teams: the source tests the raw netRank
field (a comparison against an absent field is false). -/
def floorStage (em : ExtremeMismatchResult) (team1 team2 : Team) (s : ℚ × ℚ) : ℚ × ℚ :=
  if em.applyFloor then
    (if optGE team1.netRank 356 then max s.1 em.floorValue else s.1,
     if optGE team2.netRank 356 then max s.2 em.floorValue else s.2)
  else s

/-- Cap of the leading team at 110 for extreme mismatches. -/
def maxCapStage (em : ExtremeMismatchResult) (s : ℚ × ℚ) : ℚ × ℚ :=
  if em.applyMaxCap then
    if s.2 < s.1 then (min s.1 110, s.2) else (s.1, min s.2 110)
  else s

/-- STEP 13: close game bonus of 7 points (the closeGameBonus constant of the
source) when the margin before rounding is under 5, split 55/45 toward the
home side, or evenly at a neutral site. -/
def closeGameStage (gameContext : GameContext) (s : ℚ × ℚ) : ℚ × ℚ :=
  if |s.1 - s.2| < 5 then
    if gameContext.team1Location = Location.home then
      (s.1 + 7 * 0.55, s.2 + 7 * 0.45)
    else if gameContext.team1Location = Location.away then
      (s.1 + 7 * 0.45, s.2 + 7 * 0.55)
    else (s.1 + 7 / 2, s.2 + 7 / 2)
  else s

/-- Full pre-rounding score pipeline, stages in source order. -/
def finalScores (team1 team2 : Team) (gameContext : GameContext) : ℚ × ℚ :=
  let em := calculateExtremeMismatch team1 team2
  closeGameStage gameContext
    (maxCapStage em
      (floorStage em team1 team2
        (extremeApplyStage em
          (contextualStage team1 team2 gameContext
            (capsStage em team1 team2
              (cruiseStage em (prelimScores team1 team2 gameContext)))))))

/-- The cruise control value recorded in the calculations breakdown. -/
def cruiseControlValue (team1 team2 : Team) (gameContext : GameContext) : ℚ :=
  if (calculateExtremeMismatch team1 team2).skipCruiseControl then 0
  else
    calculateCruiseControl
      |(prelimScores team1 team2 gameContext).1 - (prelimScores team1 team2 gameContext).2|

/-- Per-team slice of the prediction result. -/
structure TeamResult where
  name : String
  fullGame : ℤ
  firstHalf : ℤ
  isWinner : Bool
deriving DecidableEq

/-- The calculations breakdown object of the result. -/
structure Calculations where
  base : TeamPair
  pace : TeamPair
  form : TeamPair
  defense : TeamPair
  location : TeamPair
  conference : ℚ
  cruiseControl : ℚ
  contextual : TeamPair
  extremeMismatch : TeamPair
deriving DecidableEq

/-- The prediction result object. -/
structure PredictionResult where
  team1 : TeamResult
  team2 : TeamResult
  total : ℤ
  firstHalfTotal : ℤ
  margin : ℤ
  winner : String
  calculations : Calculations
deriving DecidableEq

/-- The post-validation body of calculateV2Prediction: run the pipeline, round
both scores, project the first half and compose the result. -/
def v2Pipeline (team1 team2 : Team) (gameContext : GameContext) : PredictionResult :=
  let zs := finalScores team1 team2 gameContext
  let team1Score := jsRound zs.1
  let team2Score := jsRound zs.2
  let firstHalf := calculateFirstHalf team1Score team2Score team1 team2
  { team1 :=
      { name := team1.team, fullGame := team1Score, firstHalf := firstHalf.team1,
        isWinner := decide (team2Score < team1Score) },
    team2 :=
      { name := team2.team, fullGame := team2Score, firstHalf := firstHalf.team2,
        isWinner := decide (team1Score < team2Score) },
    total := team1Score + team2Score,
    firstHalfTotal := firstHalf.total,
    margin := |team1Score - team2Score|,
    winner := if team2Score < team1Score then team1.team else team2.team,
    calculations :=
      { base := ⟨(team1.ppg + team2.pointsAllowed) / 2, (team2.ppg + team1.pointsAllowed) / 2⟩,
        pace := calculatePaceAdjustment team1 team2,
        form := ⟨calculateFormAdjustment team1, calculateFormAdjustment team2⟩,
        defense := calculateDefenseQualityAdjustment team1 team2,
        location := calculateLocationAdjustment team1 team2 gameContext,
        conference := calculateConferenceAdjustment gameContext,
        cruiseControl := cruiseControlValue team1 team2 gameContext,
        contextual :=
          ⟨calculateContextualAdjustments team1 gameContext,
           calculateContextualAdjustments team2 gameContext⟩,
        extremeMismatch := (calculateExtremeMismatch team1 team2).adjustments } }

/-- Conversion of a raw input object into a validated profile; only evaluated
after the validation block has established that the required fields are
present. -/
def mkTeam (t : RawTeam) : Team :=
  { team := t.team.getD "", ppg := t.ppg.getD 0, pointsAllowed := t.pointsAllowed.getD 0,
    defenseRank := t.defenseRank.getD 0, fieldGoalPct := t.fieldGoalPct,
    ppgRank := t.ppgRank, netRank := t.netRank, winStreak := t.winStreak,
    lossStreak := t.lossStreak, last5PPG := t.last5PPG, firstHalfPPG := t.firstHalfPPG,
    homeRecord := t.homeRecord, awayRecord := t.awayRecord,
    neutralRecord := t.neutralRecord }

/-- The exported entry point: the validation block in source order, then the
pipeline.  Thrown errors surface as the error case, with the message prefix
added by the catch block of the source. -/
def calculateV2Prediction (team1 team2 : RawTeam) (gameContext : GameContext) :
    Except String PredictionResult :=
  if jsFalsyStr team1.team || jsFalsyStr team2.team then
    .error "v2.2 Prediction failed: Both teams must have a team name"
  else if team1.ppg.isNone || team2.ppg.isNone then
    .error "v2.2 Prediction failed: Both teams must have valid PPG (points per game) values"
  else if team1.pointsAllowed.isNone || team2.pointsAllowed.isNone then
    .error "v2.2 Prediction failed: Both teams must have valid pointsAllowed values"
  else if team1.defenseRank.isNone || team2.defenseRank.isNone then
    .error "v2.2 Prediction failed: Both teams must have valid defenseRank values"
  else if team1.ppg.getD 0 < 0 ∨ 150 < team1.ppg.getD 0 ∨ team2.ppg.getD 0 < 0 ∨
      150 < team2.ppg.getD 0 then
    .error "v2.2 Prediction failed: PPG values must be between 0 and 150"
  else if team1.defenseRank.getD 0 < 1 ∨ 363 < team1.defenseRank.getD 0 ∨
      team2.defenseRank.getD 0 < 1 ∨ 363 < team2.defenseRank.getD 0 then
    .error "v2.2 Prediction failed: Defense rank must be between 1 and 363"
  else
    .ok (v2Pipeline (mkTeam team1) (mkTeam team2) gameContext)

/-- Condition under which the validation block rejects, written after the
words of the specification (amended with the empty-label case): a profile is
missing or has an empty team label, is missing a numeric value for PPG,
points-allowed or defense rank, or has a PPG outside 0 to 150, or a defense
rank outside 1 to 363. -/
def validationRejects (t1 t2 : RawTeam) : Prop :=
  jsFalsyStr t1.team = true ∨ jsFalsyStr t2.team = true ∨
  t1.ppg = none ∨ t2.ppg = none ∨
  t1.pointsAllowed = none ∨ t2.pointsAllowed = none ∨
  t1.defenseRank = none ∨ t2.defenseRank = none ∨
  t1.ppg.getD 0 < 0 ∨ 150 < t1.ppg.getD 0 ∨ t2.ppg.getD 0 < 0 ∨ 150 < t2.ppg.getD 0 ∨
  t1.defenseRank.getD 0 < 1 ∨ 363 < t1.defenseRank.getD 0 ∨
  t2.defenseRank.getD 0 < 1 ∨ 363 < t2.defenseRank.getD 0

instance (t1 t2 : RawTeam) : Decidable (validationRejects t1 t2) := by
  unfold validationRejects
  infer_instance

/-- Sample raw profile with only the required fields; paired with
sampleRaw2 it produces identical rounded scores of 74, a tie. -/
def sampleRaw1 : RawTeam :=
  { team := some "Team A", ppg := some 70, pointsAllowed := some 70, defenseRank := some 150 }

/-- Second sample raw profile, identical statistics to sampleRaw1. -/
def sampleRaw2 : RawTeam :=
  { team := some "Team B", ppg := some 70, pointsAllowed := some 70, defenseRank := some 150 }

/-- Sample game context with no optional data (neutral site). -/
def sampleContext : GameContext := {}

/-- Sample raw profile ranked in the bottom-10 band (NET 360). -/
def sampleBottomRaw1 : RawTeam :=
  { team := some "Team A", ppg := some 70, pointsAllowed := some 70, defenseRank := some 150,
    netRank := some 360 }

/-- Sample raw profile ranked in the bottom-10 band (NET 356). -/
def sampleBottomRaw2 : RawTeam :=
  { team := some "Team B", ppg := some 70, pointsAllowed := some 70, defenseRank := some 150,
    netRank := some 356 }

/-- Sample validated profile ranked NET 360 (bottom-10 band). -/
def sampleBottomTeam1 : Team :=
  { team := "A", ppg := 70, pointsAllowed := 70, defenseRank := 150, netRank := some 360 }

/-- Sample validated profile ranked NET 356 (bottom-10 band, the better of the
two bottom-10 samples). -/
def sampleBottomTeam2 : Team :=
  { team := "B", ppg := 70, pointsAllowed := 70, defenseRank := 150, netRank := some 356 }

/-- Sample validated mid-table profile (NET 100, defense rank 150). -/
def sampleMidTeam : Team :=
  { team := "M", ppg := 70, pointsAllowed := 70, defenseRank := 150, netRank := some 100 }

/-- Sample validated profile with a missing overall-strength rank. -/
def sampleMissingNet : Team :=
  { team := "N", ppg := 70, pointsAllowed := 70, defenseRank := 150 }

/-- Sample validated profile ranked NET 340 (bottom-50 band but not
bottom-10). -/
def sampleNet340 : Team :=
  { team := "O", ppg := 70, pointsAllowed := 70, defenseRank := 150, netRank := some 340 }

/-- Sample elite offense (PPG 90). -/
def sampleEliteOffense : Team :=
  { team := "E", ppg := 90, pointsAllowed := 70, defenseRank := 150 }

/-- Sample poor offense (PPG 60, field-goal percentage 0.35). -/
def samplePoorOffense : Team :=
  { team := "P", ppg := 60, pointsAllowed := 70, defenseRank := 150,
    fieldGoalPct := some 0.35 }

/-- Sample opponent with a very weak defense (rank 350). -/
def sampleWeakDefense : Team :=
  { team := "W", ppg := 70, pointsAllowed := 70, defenseRank := 350 }

/-- Sample opponent with a top defense (rank 20). -/
def sampleTopDefense : Team :=
  { team := "T", ppg := 70, pointsAllowed := 70, defenseRank := 20 }

/-- Sample opponent with a mid defense (rank 80). -/
def sampleMidDefense : Team :=
  { team := "D", ppg := 70, pointsAllowed := 70, defenseRank := 80 }

/-- Sample raw profile whose team label is the empty string but whose numeric
fields are all present and in range. -/
def emptyLabelRaw : RawTeam :=
  { team := some "", ppg := some 70, pointsAllowed := some 70, defenseRank := some 150 }

/-- Inversion of a successful prediction call: a returned result is exactly
the pipeline output on the converted profiles. -/
theorem v2Prediction_ok_elim (t1 t2 : RawTeam) (g : GameContext) (r : PredictionResult)
    (h : calculateV2Prediction t1 t2 g = .ok r) :
    r = v2Pipeline (mkTeam t1) (mkTeam t2) g := by
  unfold calculateV2Prediction at h
  split_ifs at h
  all_goals simp_all

/-- C2: for every successful prediction, the total is the sum of the two
rounded full-game scores, the margin is their absolute difference, and the
fullGame fields are exactly the rounded pipeline scores. -/
theorem total_and_margin_consistent (t1 t2 : RawTeam) (g : GameContext)
    (r : PredictionResult) (h : calculateV2Prediction t1 t2 g = .ok r) :
    r.total = r.team1.fullGame + r.team2.fullGame ∧
      r.margin = |r.team1.fullGame - r.team2.fullGame| ∧
      r.team1.fullGame = jsRound (finalScores (mkTeam t1) (mkTeam t2) g).1 ∧
      r.team2.fullGame = jsRound (finalScores (mkTeam t1) (mkTeam t2) g).2 := by
  obtain rfl := v2Prediction_ok_elim t1 t2 g r h
  exact ⟨rfl, rfl, rfl, rfl⟩

/-- C2 witness: the consistency equations evaluated on a concrete valid
input. -/
theorem total_and_margin_consistent_witness :
    (v2Pipeline (mkTeam sampleRaw1) (mkTeam sampleRaw2) sampleContext).total =
        (v2Pipeline (mkTeam sampleRaw1) (mkTeam sampleRaw2) sampleContext).team1.fullGame +
          (v2Pipeline (mkTeam sampleRaw1) (mkTeam sampleRaw2) sampleContext).team2.fullGame ∧
      (v2Pipeline (mkTeam sampleRaw1) (mkTeam sampleRaw2) sampleContext).margin =
        |(v2Pipeline (mkTeam sampleRaw1) (mkTeam sampleRaw2) sampleContext).team1.fullGame -
          (v2Pipeline (mkTeam sampleRaw1) (mkTeam sampleRaw2) sampleContext).team2.fullGame| ∧
      (v2Pipeline (mkTeam sampleRaw1) (mkTeam sampleRaw2) sampleContext).team1.fullGame =
        jsRound (finalScores (mkTeam sampleRaw1) (mkTeam sampleRaw2) sampleContext).1 ∧
      (v2Pipeline (mkTeam sampleRaw1) (mkTeam sampleRaw2) sampleContext).team2.fullGame =
        jsRound (finalScores (mkTeam sampleRaw1) (mkTeam sampleRaw2) sampleContext).2 :=
  total_and_margin_consistent sampleRaw1 sampleRaw2 sampleContext _ rfl

/-- C1 (amended): in every returned result at most one of the two isWinner
flags is true, and exactly one is true precisely when the rounded full-game
scores differ; on a tie of the rounded scores neither team is marked as the
winner. -/
theorem isWinner_exclusive_unless_tie (t1 t2 : RawTeam) (g : GameContext)
    (r : PredictionResult) (h : calculateV2Prediction t1 t2 g = .ok r) :
    ¬(r.team1.isWinner = true ∧ r.team2.isWinner = true) ∧
      ((r.team1.isWinner = true ∨ r.team2.isWinner = true) ↔
        r.team1.fullGame ≠ r.team2.fullGame) := by
  obtain rfl := v2Prediction_ok_elim t1 t2 g r h
  have e1 : (v2Pipeline (mkTeam t1) (mkTeam t2) g).team1.isWinner
      = decide (jsRound (finalScores (mkTeam t1) (mkTeam t2) g).2
          < jsRound (finalScores (mkTeam t1) (mkTeam t2) g).1) := rfl
  have e2 : (v2Pipeline (mkTeam t1) (mkTeam t2) g).team2.isWinner
      = decide (jsRound (finalScores (mkTeam t1) (mkTeam t2) g).1
          < jsRound (finalScores (mkTeam t1) (mkTeam t2) g).2) := rfl
  have e3 : (v2Pipeline (mkTeam t1) (mkTeam t2) g).team1.fullGame
      = jsRound (finalScores (mkTeam t1) (mkTeam t2) g).1 := rfl
  have e4 : (v2Pipeline (mkTeam t1) (mkTeam t2) g).team2.fullGame
      = jsRound (finalScores (mkTeam t1) (mkTeam t2) g).2 := rfl
  rw [e1, e2, e3, e4]
  generalize jsRound (finalScores (mkTeam t1) (mkTeam t2) g).1 = a
  generalize jsRound (finalScores (mkTeam t1) (mkTeam t2) g).2 = b
  simp only [decide_eq_true_eq]
  omega

/-- C1 counterexample: on two identical valid profiles (PPG 70, points
allowed 70, defense rank 150) both rounded scores are 74, so the prediction
succeeds with both isWinner flags false — the claim that exactly one flag is
true fails on this input. -/
theorem isWinner_tie_counterexample :
    (calculateV2Prediction sampleRaw1 sampleRaw2 sampleContext).toOption.map
        (fun r => (r.team1.fullGame, r.team2.fullGame, r.team1.isWinner, r.team2.isWinner)) =
      some (74, 74, false, false) := by
  have hz : finalScores (mkTeam sampleRaw1) (mkTeam sampleRaw2) sampleContext
      = (73.54, 74.06) := by
    norm_num +decide [finalScores, prelimScores, mkTeam, sampleRaw1, sampleRaw2, sampleContext,
      calculatePaceAdjustment, calculateFormAdjustment, calculateDefenseQualityAdjustment,
      calculateLocationAdjustment, calculateConferenceAdjustment, getPaceCategory,
      getDiffCategory, getDefCategory, isGoodDef, paceMatrix, classifyOffense, getDefRank,
      defenseImpactMatrix, mutualDefensePenalty, bothTop70, bothGood71To110,
      bothAverage111To180, oneTop70Other71To150, jsOr, optGE, jsTruthy, winRate, rGE, rLT,
      rEQ0, homeBonus, roadPenalty, weakRoadRecord, neutralAdjustment, abs_of_nonneg,
      abs_of_nonpos, calculateExtremeMismatch, statementGameBonus, cruiseStage, capsStage,
      contextualStage, extremeApplyStage, floorStage, maxCapStage, closeGameStage,
      calculateCruiseControl, applyEliteCaps, calculateContextualAdjustments]
  have h : calculateV2Prediction sampleRaw1 sampleRaw2 sampleContext
      = .ok (v2Pipeline (mkTeam sampleRaw1) (mkTeam sampleRaw2) sampleContext) := rfl
  rw [h]
  simp only [Except.toOption, Option.map, v2Pipeline, hz]
  norm_num [jsRound, Rat.floor_def']

/-- C1 witness: the amended statement evaluated on the concrete tie input. -/
theorem isWinner_exclusive_unless_tie_witness :
    ¬((v2Pipeline (mkTeam sampleRaw1) (mkTeam sampleRaw2) sampleContext).team1.isWinner = true ∧
        (v2Pipeline (mkTeam sampleRaw1) (mkTeam sampleRaw2) sampleContext).team2.isWinner = true) ∧
      (((v2Pipeline (mkTeam sampleRaw1) (mkTeam sampleRaw2) sampleContext).team1.isWinner = true ∨
          (v2Pipeline (mkTeam sampleRaw1) (mkTeam sampleRaw2) sampleContext).team2.isWinner = true) ↔
        (v2Pipeline (mkTeam sampleRaw1) (mkTeam sampleRaw2) sampleContext).team1.fullGame ≠
          (v2Pipeline (mkTeam sampleRaw1) (mkTeam sampleRaw2) sampleContext).team2.fullGame) :=
  isWinner_exclusive_unless_tie sampleRaw1 sampleRaw2 sampleContext _ rfl

/-- Helper: with at least one team in the bottom-10 band, all four override
flags of the extreme mismatch controller are set and the floor is 48. -/
theorem em_bottom10_flags_aux (t1 t2 : Team)
    (h : 356 ≤ jsOr t1.netRank 150 ∨ 356 ≤ jsOr t2.netRank 150) :
    (calculateExtremeMismatch t1 t2).skipCruiseControl = true ∧
      (calculateExtremeMismatch t1 t2).skipEliteCaps = true ∧
      (calculateExtremeMismatch t1 t2).applyFloor = true ∧
      (calculateExtremeMismatch t1 t2).applyMaxCap = true ∧
      (calculateExtremeMismatch t1 t2).floorValue = 48 := by
  have hb : (decide (356 ≤ jsOr t1.netRank 150) || decide (356 ≤ jsOr t2.netRank 150)) = true := by
    rcases h with h | h <;> simp [h]
  refine ⟨?_, ?_, ?_, ?_, rfl⟩ <;> simp [calculateExtremeMismatch, hb]

/-- C3 (amended): whenever at least one team is in the bottom-10 band
(NET at least 356), the controller sets the skip-cruise-control and
skip-elite-caps flags and records the floor 48; when exactly one team is in
the band, the stage additionally shifts that pair by minus 12.5 for the
bottom-10 team and plus 12.5 for the other (necessarily better-ranked) team,
on top of the independent statement-game bonus; when both teams are in the
band no such shift is applied. -/
theorem extremeMismatch_bottom10_flags (t1 t2 : Team)
    (h : 356 ≤ jsOr t1.netRank 150 ∨ 356 ≤ jsOr t2.netRank 150) :
    (calculateExtremeMismatch t1 t2).skipCruiseControl = true ∧
      (calculateExtremeMismatch t1 t2).skipEliteCaps = true ∧
      (calculateExtremeMismatch t1 t2).applyFloor = true ∧
      (calculateExtremeMismatch t1 t2).floorValue = 48 ∧
      (356 ≤ jsOr t1.netRank 150 → jsOr t2.netRank 150 < 356 →
        (calculateExtremeMismatch t1 t2).adjustments.team1 =
            -12.5 + statementGameBonus t1 t2 ∧
          (calculateExtremeMismatch t1 t2).adjustments.team2 =
            12.5 + statementGameBonus t2 t1) ∧
      (356 ≤ jsOr t2.netRank 150 → jsOr t1.netRank 150 < 356 →
        (calculateExtremeMismatch t1 t2).adjustments.team1 =
            12.5 + statementGameBonus t1 t2 ∧
          (calculateExtremeMismatch t1 t2).adjustments.team2 =
            -12.5 + statementGameBonus t2 t1) := by
  have aux := em_bottom10_flags_aux t1 t2 h
  refine ⟨aux.1, aux.2.1, aux.2.2.1, aux.2.2.2.2, ?_, ?_⟩
  · intro ha hblt
    have e1 : decide (356 ≤ jsOr t1.netRank 150) = true := decide_eq_true ha
    have e2 : decide (356 ≤ jsOr t2.netRank 150) = false := decide_eq_false (not_le.mpr hblt)
    constructor <;> simp [calculateExtremeMismatch, e1, e2]
  · intro hb halt
    have e1 : decide (356 ≤ jsOr t1.netRank 150) = false := decide_eq_false (not_le.mpr halt)
    have e2 : decide (356 ≤ jsOr t2.netRank 150) = true := decide_eq_true hb
    constructor <;> simp [calculateExtremeMismatch, e1, e2]

/-- C3 counterexample: with both teams in the bottom-10 band (NET 360 and
356) the flags fire but the per-team adjustments are both 0, not the
plus/minus 12.5 shift the claim requires for every bottom-10 matchup. -/
theorem extremeMismatch_both_bottom10_counterexample :
    356 ≤ jsOr sampleBottomTeam1.netRank 150 ∧
      356 ≤ jsOr sampleBottomTeam2.netRank 150 ∧
      (calculateExtremeMismatch sampleBottomTeam1 sampleBottomTeam2).adjustments = ⟨0, 0⟩ := by
  refine ⟨by decide, by decide, ?_⟩
  norm_num +decide [calculateExtremeMismatch, statementGameBonus, jsOr, sampleBottomTeam1,
    sampleBottomTeam2, abs_of_nonneg, abs_of_nonpos]

/-- C3 witness: flags and the exact shift evaluated on a one-sided bottom-10
matchup (NET 360 versus NET 100). -/
theorem extremeMismatch_bottom10_flags_witness :
    (calculateExtremeMismatch sampleBottomTeam1 sampleMidTeam).skipCruiseControl = true ∧
      (calculateExtremeMismatch sampleBottomTeam1 sampleMidTeam).skipEliteCaps = true ∧
      (calculateExtremeMismatch sampleBottomTeam1 sampleMidTeam).floorValue = 48 ∧
      (calculateExtremeMismatch sampleBottomTeam1 sampleMidTeam).adjustments.team1 =
        -12.5 + statementGameBonus sampleBottomTeam1 sampleMidTeam ∧
      (calculateExtremeMismatch sampleBottomTeam1 sampleMidTeam).adjustments.team2 =
        12.5 + statementGameBonus sampleMidTeam sampleBottomTeam1 := by
  have h := extremeMismatch_bottom10_flags sampleBottomTeam1 sampleMidTeam (Or.inl (by decide))
  exact ⟨h.1, h.2.1, h.2.2.2.1, (h.2.2.2.2.1 (by decide) (by decide)).1,
    (h.2.2.2.2.1 (by decide) (by decide)).2⟩

/-- Helper: a jsOr-defaulted overall-strength rank of at least 356 means the
raw field itself holds a value of at least 356. -/
theorem optGE_356_of_jsOr (v : Option ℚ) (h : 356 ≤ jsOr v 150) : optGE v 356 = true := by
  cases v with
  | none => exact absurd h (by norm_num [jsOr])
  | some x =>
    simp only [jsOr] at h
    by_cases hx : x = 0
    · rw [if_pos hx] at h
      exact absurd h (by norm_num)
    · rw [if_neg hx] at h
      simpa [optGE] using h

/-- Helper: the floor stage yields at least 48 for both teams when the floor
flag is set at value 48 and both raw ranks are in the bottom band. -/
theorem floorStage_ge (em : ExtremeMismatchResult) (t1 t2 : Team) (s : ℚ × ℚ)
    (hf : em.applyFloor = true) (hv : em.floorValue = 48)
    (hA : optGE t1.netRank 356 = true) (hB : optGE t2.netRank 356 = true) :
    48 ≤ (floorStage em t1 t2 s).1 ∧ 48 ≤ (floorStage em t1 t2 s).2 := by
  simp only [floorStage, hf, hA, hB, hv, if_true]
  exact ⟨le_max_right _ _, le_max_right _ _⟩

/-- Helper: the 110-point cap keeps both scores at or above 48. -/
theorem maxCapStage_ge (em : ExtremeMismatchResult) (s : ℚ × ℚ)
    (h1 : 48 ≤ s.1) (h2 : 48 ≤ s.2) :
    48 ≤ (maxCapStage em s).1 ∧ 48 ≤ (maxCapStage em s).2 := by
  unfold maxCapStage
  split_ifs
  · exact ⟨le_min h1 (by norm_num), h2⟩
  · exact ⟨h1, le_min h2 (by norm_num)⟩
  · exact ⟨h1, h2⟩

/-- Helper: the close game bonus never lowers a score. -/
theorem closeGameStage_ge (g : GameContext) (s : ℚ × ℚ)
    (h1 : 48 ≤ s.1) (h2 : 48 ≤ s.2) :
    48 ≤ (closeGameStage g s).1 ∧ 48 ≤ (closeGameStage g s).2 := by
  unfold closeGameStage
  split_ifs <;> constructor <;> dsimp only <;> nlinarith [h1, h2]

/-- Helper: with both teams in the bottom-10 band both pre-rounding scores
are at least 48. -/
theorem finalScores_ge_48 (t1 t2 : Team) (g : GameContext)
    (h1 : 356 ≤ jsOr t1.netRank 150) (h2 : 356 ≤ jsOr t2.netRank 150) :
    48 ≤ (finalScores t1 t2 g).1 ∧ 48 ≤ (finalScores t1 t2 g).2 := by
  have hem := em_bottom10_flags_aux t1 t2 (Or.inl h1)
  have hf := floorStage_ge (calculateExtremeMismatch t1 t2) t1 t2
    (extremeApplyStage (calculateExtremeMismatch t1 t2)
      (contextualStage t1 t2 g
        (capsStage (calculateExtremeMismatch t1 t2) t1 t2
          (cruiseStage (calculateExtremeMismatch t1 t2) (prelimScores t1 t2 g)))))
    hem.2.2.1 hem.2.2.2.2 (optGE_356_of_jsOr _ h1) (optGE_356_of_jsOr _ h2)
  have hm := maxCapStage_ge (calculateExtremeMismatch t1 t2) _ hf.1 hf.2
  have hc := closeGameStage_ge g _ hm.1 hm.2
  exact hc

/-- Helper: rounding preserves a lower bound of 48. -/
theorem jsRound_ge_48 (x : ℚ) (h : 48 ≤ x) : 48 ≤ jsRound x := by
  unfold jsRound
  rw [Rat.le_floor]
  push_cast
  linarith

/-- C4: when both teams carry an overall-strength rank of at least 356, the
cruise control contribution recorded in the breakdown is 0 and the skip flags
that bypass cruise control and elite caps are set (so neither stage runs,
whatever the preliminary margin), and both rounded full-game scores — in
particular that of the worse-ranked team — are at least 48. -/
theorem bothBottom10_bypasses_and_floor (t1 t2 : RawTeam) (g : GameContext)
    (r : PredictionResult) (h : calculateV2Prediction t1 t2 g = .ok r)
    (h1 : 356 ≤ jsOr t1.netRank 150) (h2 : 356 ≤ jsOr t2.netRank 150) :
    r.calculations.cruiseControl = 0 ∧
      (calculateExtremeMismatch (mkTeam t1) (mkTeam t2)).skipCruiseControl = true ∧
      (calculateExtremeMismatch (mkTeam t1) (mkTeam t2)).skipEliteCaps = true ∧
      48 ≤ r.team1.fullGame ∧ 48 ≤ r.team2.fullGame := by
  obtain rfl := v2Prediction_ok_elim t1 t2 g r h
  have hA : 356 ≤ jsOr (mkTeam t1).netRank 150 := h1
  have hB : 356 ≤ jsOr (mkTeam t2).netRank 150 := h2
  have hem := em_bottom10_flags_aux (mkTeam t1) (mkTeam t2) (Or.inl hA)
  have hfs := finalScores_ge_48 (mkTeam t1) (mkTeam t2) g hA hB
  refine ⟨?_, hem.1, hem.2.1, ?_, ?_⟩
  · have e : (v2Pipeline (mkTeam t1) (mkTeam t2) g).calculations.cruiseControl
        = cruiseControlValue (mkTeam t1) (mkTeam t2) g := rfl
    rw [e]
    unfold cruiseControlValue
    rw [hem.1]
    simp
  · have e : (v2Pipeline (mkTeam t1) (mkTeam t2) g).team1.fullGame
        = jsRound (finalScores (mkTeam t1) (mkTeam t2) g).1 := rfl
    rw [e]
    exact jsRound_ge_48 _ hfs.1
  · have e : (v2Pipeline (mkTeam t1) (mkTeam t2) g).team2.fullGame
        = jsRound (finalScores (mkTeam t1) (mkTeam t2) g).2 := rfl
    rw [e]
    exact jsRound_ge_48 _ hfs.2

/-- C4 witness: both conclusions evaluated on a concrete bottom-10 pairing
(NET 360 versus NET 356). -/
theorem bothBottom10_bypasses_and_floor_witness :
    (v2Pipeline (mkTeam sampleBottomRaw1) (mkTeam sampleBottomRaw2)
        sampleContext).calculations.cruiseControl = 0 ∧
      (calculateExtremeMismatch (mkTeam sampleBottomRaw1)
        (mkTeam sampleBottomRaw2)).skipCruiseControl = true ∧
      (calculateExtremeMismatch (mkTeam sampleBottomRaw1)
        (mkTeam sampleBottomRaw2)).skipEliteCaps = true ∧
      48 ≤ (v2Pipeline (mkTeam sampleBottomRaw1) (mkTeam sampleBottomRaw2)
        sampleContext).team1.fullGame ∧
      48 ≤ (v2Pipeline (mkTeam sampleBottomRaw1) (mkTeam sampleBottomRaw2)
        sampleContext).team2.fullGame :=
  bothBottom10_bypasses_and_floor sampleBottomRaw1 sampleBottomRaw2 sampleContext _ rfl
    (by decide) (by decide)

/-- C5 (amended): when the elite-cap stage runs, a team with PPG at least 85
is clamped to at most 82.5 whenever the opponent defense rank is above 100
(including ranks of 300 and above, for which the 90-point branch of the
source is unreachable), to at most 74 when the rank is at most 50, and not
clamped at all for ranks in the 51 to 100 band; a team with PPG at most 65
and field-goal percentage under 0.40 is floored at 47.5 against a defense
ranked at most 30 and at 52.5 otherwise. -/
theorem applyEliteCaps_spec (score : ℚ) (team opponent : Team) :
    (85 ≤ team.ppg → 100 < opponent.defenseRank →
      applyEliteCaps score team opponent = min score 82.5) ∧
      (85 ≤ team.ppg → opponent.defenseRank ≤ 50 →
        applyEliteCaps score team opponent = min score 74) ∧
      (85 ≤ team.ppg → 50 < opponent.defenseRank → opponent.defenseRank ≤ 100 →
        applyEliteCaps score team opponent = score) ∧
      (team.ppg ≤ 65 → jsOr team.fieldGoalPct 0.45 < 0.40 → opponent.defenseRank ≤ 30 →
        applyEliteCaps score team opponent = max score 47.5) ∧
      (team.ppg ≤ 65 → jsOr team.fieldGoalPct 0.45 < 0.40 → 30 < opponent.defenseRank →
        applyEliteCaps score team opponent = max score 52.5) := by
  refine ⟨?_, ?_, ?_, ?_, ?_⟩
  · intro hp hd
    simp [applyEliteCaps, hp, hd]
  · intro hp hd
    have n1 : ¬(100 < opponent.defenseRank) := by linarith
    simp [applyEliteCaps, hp, hd, n1]
  · intro hp hl hu
    have n1 : ¬(100 < opponent.defenseRank) := by linarith
    have n2 : ¬(opponent.defenseRank ≤ 50) := by linarith
    have n3 : ¬(300 ≤ opponent.defenseRank) := by linarith
    have n4 : ¬(team.ppg ≤ 65) := by linarith
    simp [applyEliteCaps, hp, n1, n2, n3, n4]
  · intro hp hf hd
    have n : ¬(85 ≤ team.ppg) := by linarith
    simp [applyEliteCaps, n, hp, hf, hd]
  · intro hp hf hd
    have n : ¬(85 ≤ team.ppg) := by linarith
    have n2 : ¬(opponent.defenseRank ≤ 30) := by linarith
    simp [applyEliteCaps, n, hp, hf, n2]

/-- C5 counterexample: an elite offense (PPG 90) facing a defense ranked 80
(neither weak nor elite in the sense of the claim) is not clamped at all: the
score 95 passes through, while the claim requires a clamp to at most 82.5 in
this case. -/
theorem applyEliteCaps_uncapped_counterexample :
    applyEliteCaps 95 sampleEliteOffense sampleMidDefense = 95 ∧
      ¬(applyEliteCaps 95 sampleEliteOffense sampleMidDefense ≤ 82.5) := by
  have e : applyEliteCaps 95 sampleEliteOffense sampleMidDefense = 95 := by
    norm_num [applyEliteCaps, sampleEliteOffense, sampleMidDefense, jsOr]
  refine ⟨e, ?_⟩
  rw [e]
  norm_num

/-- C5 witness: every branch of the amended cap behavior evaluated on
concrete teams. -/
theorem applyEliteCaps_spec_witness :
    applyEliteCaps 95 sampleEliteOffense sampleWeakDefense = min 95 82.5 ∧
      applyEliteCaps 95 sampleEliteOffense sampleTopDefense = min 95 74 ∧
      applyEliteCaps 95 sampleEliteOffense sampleMidDefense = 95 ∧
      applyEliteCaps 40 samplePoorOffense sampleTopDefense = max 40 47.5 ∧
      applyEliteCaps 40 samplePoorOffense sampleMidDefense = max 40 52.5 :=
  ⟨(applyEliteCaps_spec 95 sampleEliteOffense sampleWeakDefense).1 (by decide) (by decide),
   (applyEliteCaps_spec 95 sampleEliteOffense sampleTopDefense).2.1 (by decide) (by decide),
   (applyEliteCaps_spec 95 sampleEliteOffense sampleMidDefense).2.2.1 (by decide) (by decide)
     (by decide),
   (applyEliteCaps_spec 40 samplePoorOffense sampleTopDefense).2.2.2.1 (by decide)
     (by norm_num [samplePoorOffense, jsOr]) (by decide),
   (applyEliteCaps_spec 40 samplePoorOffense sampleMidDefense).2.2.2.2 (by decide)
     (by norm_num [samplePoorOffense, jsOr]) (by decide)⟩

/-- C6 (code bug): the source reads the days of rest through the JS or
operator with default 2, so a context with 0 days of rest is treated as 2
days and the minus-4 back-to-back branch (present in the source) can never
fire: the contextual adjustment at 0 days of rest is 0, not the minus 4 the
specification states, while 1 day of rest correctly yields minus 1.5. -/
theorem contextual_rest_zero_days :
    calculateContextualAdjustments sampleMidTeam { daysRest := some 0 } = 0 ∧
      calculateContextualAdjustments sampleMidTeam { daysRest := some 1 } = -1.5 := by
  constructor <;> norm_num [calculateContextualAdjustments, jsOr, jsTruthy, optGE]

/-- C7: with both raw defense ranks in the 111 to 180 band the mutual-defense
correction is exactly 0 — the defense-quality stage output is the bare matrix
lookup — and the four rank-range rules of the correction are pairwise
mutually exclusive on all rank pairs. -/
theorem mutualDefense_average_band_and_exclusive :
    (∀ t1 t2 : Team, 111 ≤ t1.defenseRank → t1.defenseRank ≤ 180 →
      111 ≤ t2.defenseRank → t2.defenseRank ≤ 180 →
      mutualDefensePenalty t1.defenseRank t2.defenseRank = 0 ∧
        calculateDefenseQualityAdjustment t1 t2 =
          ⟨defenseImpactMatrix (classifyOffense t1) (getDefRank t2.defenseRank),
            defenseImpactMatrix (classifyOffense t2) (getDefRank t1.defenseRank)⟩) ∧
      (∀ r1 r2 : ℚ,
        ¬(bothTop70 r1 r2 = true ∧ bothGood71To110 r1 r2 = true) ∧
          ¬(bothTop70 r1 r2 = true ∧ bothAverage111To180 r1 r2 = true) ∧
          ¬(bothTop70 r1 r2 = true ∧ oneTop70Other71To150 r1 r2 = true) ∧
          ¬(bothGood71To110 r1 r2 = true ∧ bothAverage111To180 r1 r2 = true) ∧
          ¬(bothGood71To110 r1 r2 = true ∧ oneTop70Other71To150 r1 r2 = true) ∧
          ¬(bothAverage111To180 r1 r2 = true ∧ oneTop70Other71To150 r1 r2 = true)) := by
  constructor
  · intro t1 t2 h1 h2 h3 h4
    have e1 : bothTop70 t1.defenseRank t2.defenseRank = false := by
      simp only [bothTop70, decide_eq_false_iff_not]
      rintro ⟨ha, _⟩
      linarith
    have e2 : bothGood71To110 t1.defenseRank t2.defenseRank = false := by
      simp only [bothGood71To110, decide_eq_false_iff_not]
      rintro ⟨_, hb, _⟩
      linarith
    have e3 : bothAverage111To180 t1.defenseRank t2.defenseRank = true := by
      simp only [bothAverage111To180, decide_eq_true_eq]
      exact ⟨h1, h2, h3, h4⟩
    constructor
    · simp [mutualDefensePenalty, e1, e2, e3]
    · simp [calculateDefenseQualityAdjustment, mutualDefensePenalty, e1, e2, e3]
  · intro r1 r2
    refine ⟨?_, ?_, ?_, ?_, ?_, ?_⟩
    · rintro ⟨ha, hb⟩
      simp only [bothTop70, decide_eq_true_eq] at ha
      simp only [bothGood71To110, decide_eq_true_eq] at hb
      obtain ⟨a1, _⟩ := ha
      obtain ⟨b1, _, _, _⟩ := hb
      linarith
    · rintro ⟨ha, hb⟩
      simp only [bothTop70, decide_eq_true_eq] at ha
      simp only [bothAverage111To180, decide_eq_true_eq] at hb
      obtain ⟨a1, _⟩ := ha
      obtain ⟨b1, _, _, _⟩ := hb
      linarith
    · rintro ⟨ha, hb⟩
      simp only [bothTop70, decide_eq_true_eq] at ha
      simp only [oneTop70Other71To150, decide_eq_true_eq] at hb
      obtain ⟨a1, a2⟩ := ha
      rcases hb with ⟨_, b1, _⟩ | ⟨_, b1, _⟩ <;> linarith
    · rintro ⟨ha, hb⟩
      simp only [bothGood71To110, decide_eq_true_eq] at ha
      simp only [bothAverage111To180, decide_eq_true_eq] at hb
      obtain ⟨_, a1, _, _⟩ := ha
      obtain ⟨b1, _, _, _⟩ := hb
      linarith
    · rintro ⟨ha, hb⟩
      simp only [bothGood71To110, decide_eq_true_eq] at ha
      simp only [oneTop70Other71To150, decide_eq_true_eq] at hb
      obtain ⟨a1, _, a3, _⟩ := ha
      rcases hb with ⟨b1, _, _⟩ | ⟨b1, _, _⟩ <;> linarith
    · rintro ⟨ha, hb⟩
      simp only [bothAverage111To180, decide_eq_true_eq] at ha
      simp only [oneTop70Other71To150, decide_eq_true_eq] at hb
      obtain ⟨a1, _, a3, _⟩ := ha
      rcases hb with ⟨b1, _, _⟩ | ⟨b1, _, _⟩ <;> linarith

/-- C7 witness: the zero correction and one exclusivity instance at the rank
pair 150 and 150. -/
theorem mutualDefense_average_band_witness :
    mutualDefensePenalty sampleMidTeam.defenseRank sampleMidTeam.defenseRank = 0 ∧
      ¬(bothTop70 (150 : ℚ) 150 = true ∧ bothAverage111To180 (150 : ℚ) 150 = true) :=
  ⟨(mutualDefense_average_band_and_exclusive.1 sampleMidTeam sampleMidTeam (by decide)
      (by decide) (by decide) (by decide)).1,
   (mutualDefense_average_band_and_exclusive.2 150 150).2.1⟩

/-- C8: when the pre-rounding margin is under 5 the close game stage adds
exactly 7 points in total, split 3.85 and 3.15 toward the home side when one
is designated (55/45 of 7), or 3.5 each at a neutral site; at a margin of 5
or more the stage changes nothing. -/
theorem closeGameBonus_split (g : GameContext) (s : ℚ × ℚ) :
    (|s.1 - s.2| < 5 →
      ((closeGameStage g s).1 + (closeGameStage g s).2 = s.1 + s.2 + 7) ∧
        (g.team1Location = Location.home →
          (closeGameStage g s).1 = s.1 + 7 * 0.55 ∧
            (closeGameStage g s).2 = s.2 + 7 * 0.45) ∧
        (g.team1Location = Location.away →
          (closeGameStage g s).1 = s.1 + 7 * 0.45 ∧
            (closeGameStage g s).2 = s.2 + 7 * 0.55) ∧
        (g.team1Location = Location.neutral →
          (closeGameStage g s).1 = s.1 + 7 / 2 ∧
            (closeGameStage g s).2 = s.2 + 7 / 2)) ∧
      (5 ≤ |s.1 - s.2| → closeGameStage g s = s) := by
  constructor
  · intro hm
    cases hl : g.team1Location with
    | home =>
      have e : closeGameStage g s = (s.1 + 7 * 0.55, s.2 + 7 * 0.45) := by
        unfold closeGameStage
        rw [if_pos hm, if_pos hl]
      rw [e]
      refine ⟨by ring, fun _ => ⟨rfl, rfl⟩, fun hc => ?_, fun hc => ?_⟩
      · exact absurd hc (by decide)
      · exact absurd hc (by decide)
    | away =>
      have hne : ¬(g.team1Location = Location.home) := by
        rw [hl]
        decide
      have e : closeGameStage g s = (s.1 + 7 * 0.45, s.2 + 7 * 0.55) := by
        unfold closeGameStage
        rw [if_pos hm, if_neg hne, if_pos hl]
      rw [e]
      refine ⟨by ring, fun hc => ?_, fun _ => ⟨rfl, rfl⟩, fun hc => ?_⟩
      · exact absurd hc (by decide)
      · exact absurd hc (by decide)
    | neutral =>
      have hne1 : ¬(g.team1Location = Location.home) := by
        rw [hl]
        decide
      have hne2 : ¬(g.team1Location = Location.away) := by
        rw [hl]
        decide
      have e : closeGameStage g s = (s.1 + 7 / 2, s.2 + 7 / 2) := by
        unfold closeGameStage
        rw [if_pos hm, if_neg hne1, if_neg hne2]
      rw [e]
      refine ⟨by ring, fun hc => ?_, fun hc => ?_, fun _ => ⟨rfl, rfl⟩⟩
      · exact absurd hc (by decide)
      · exact absurd hc (by decide)
  · intro hge
    unfold closeGameStage
    rw [if_neg (not_lt.mpr hge)]

/-- C8 witness: a margin of 3 at a home site gains exactly 3.85 and 3.15. -/
theorem closeGameBonus_split_witness :
    (closeGameStage { team1Location := Location.home } ((73 : ℚ), (70 : ℚ))).1 +
        (closeGameStage { team1Location := Location.home } ((73 : ℚ), (70 : ℚ))).2 =
        73 + 70 + 7 ∧
      (closeGameStage { team1Location := Location.home } ((73 : ℚ), (70 : ℚ))).1 =
        73 + 7 * 0.55 ∧
      (closeGameStage { team1Location := Location.home } ((73 : ℚ), (70 : ℚ))).2 =
        70 + 7 * 0.45 := by
  have h := (closeGameBonus_split { team1Location := Location.home } ((73 : ℚ), (70 : ℚ))).1
    (by norm_num [abs_of_nonneg])
  exact ⟨h.1, (h.2.1 rfl).1, (h.2.1 rfl).2⟩

/-- C9 (amended): the call fails if and only if a profile has a missing or
empty team label, a missing numeric PPG, points-allowed or defense rank, a
PPG outside 0 to 150, or a defense rank outside 1 to 363; when validation
passes, a complete result (the full pipeline output) is returned. -/
theorem validation_iff (t1 t2 : RawTeam) (g : GameContext) :
    ((calculateV2Prediction t1 t2 g).isOk = false ↔ validationRejects t1 t2) ∧
      (¬validationRejects t1 t2 →
        calculateV2Prediction t1 t2 g = .ok (v2Pipeline (mkTeam t1) (mkTeam t2) g)) := by
  unfold calculateV2Prediction
  split_ifs with h1 h2 h3 h4 h5 h6
  · simp only [Bool.or_eq_true] at h1
    have hv : validationRejects t1 t2 := by
      unfold validationRejects
      tauto
    exact ⟨iff_of_true rfl hv, fun hn => absurd hv hn⟩
  · simp only [Bool.or_eq_true, Option.isNone_iff_eq_none] at h2
    have hv : validationRejects t1 t2 := by
      unfold validationRejects
      tauto
    exact ⟨iff_of_true rfl hv, fun hn => absurd hv hn⟩
  · simp only [Bool.or_eq_true, Option.isNone_iff_eq_none] at h3
    have hv : validationRejects t1 t2 := by
      unfold validationRejects
      tauto
    exact ⟨iff_of_true rfl hv, fun hn => absurd hv hn⟩
  · simp only [Bool.or_eq_true, Option.isNone_iff_eq_none] at h4
    have hv : validationRejects t1 t2 := by
      unfold validationRejects
      tauto
    exact ⟨iff_of_true rfl hv, fun hn => absurd hv hn⟩
  · have hv : validationRejects t1 t2 := by
      unfold validationRejects
      tauto
    exact ⟨iff_of_true rfl hv, fun hn => absurd hv hn⟩
  · have hv : validationRejects t1 t2 := by
      unfold validationRejects
      tauto
    exact ⟨iff_of_true rfl hv, fun hn => absurd hv hn⟩
  · simp only [Bool.or_eq_true, Option.isNone_iff_eq_none, not_or] at h1 h2 h3 h4
    push_neg at h5 h6
    have hv : ¬validationRejects t1 t2 := by
      unfold validationRejects
      push_neg
      tauto
    exact ⟨iff_of_false (by simp [Except.isOk, Except.toBool]) hv, fun _ => rfl⟩

/-- C9 counterexample: a profile whose team label is present but empty (with
all numeric fields present and in range) is rejected, although none of the
conditions of the claim — missing label, missing numeric field, out-of-range
PPG or defense rank — holds, so the stated if-and-only-if fails. -/
theorem validation_empty_label_counterexample :
    (calculateV2Prediction emptyLabelRaw sampleRaw2 sampleContext).isOk = false ∧
      emptyLabelRaw.team ≠ none ∧ emptyLabelRaw.ppg = some 70 ∧
      emptyLabelRaw.pointsAllowed = some 70 ∧ emptyLabelRaw.defenseRank = some 150 ∧
      0 ≤ emptyLabelRaw.ppg.getD 0 ∧ emptyLabelRaw.ppg.getD 0 ≤ 150 ∧
      1 ≤ emptyLabelRaw.defenseRank.getD 0 ∧ emptyLabelRaw.defenseRank.getD 0 ≤ 363 := by
  exact ⟨rfl, by decide, rfl, rfl, rfl, by decide, by decide, by decide, by decide⟩

/-- C9 witness: a missing team label is rejected, and a fully valid pair of
profiles produces the pipeline output. -/
theorem validation_iff_witness :
    (calculateV2Prediction { team := none } sampleRaw2 sampleContext).isOk = false ∧
      calculateV2Prediction sampleRaw1 sampleRaw2 sampleContext =
        .ok (v2Pipeline (mkTeam sampleRaw1) (mkTeam sampleRaw2) sampleContext) :=
  ⟨(validation_iff { team := none } sampleRaw2 sampleContext).1.mpr (Or.inl rfl),
   (validation_iff sampleRaw1 sampleRaw2 sampleContext).2 (by decide)⟩

/-- C10 (amended): a missing optional field is silently replaced by a neutral
default rather than causing failure, but the default for a missing
overall-strength rank is not one single value across stages: the location
stage substitutes 100 while the extreme-mismatch stage substitutes 150; a
missing field-goal percentage is replaced by 0.45 both in the offense
classification of the defense-quality stage and in the elite-cap stage. -/
theorem optional_field_defaults (t1 t2 : Team) (g : GameContext) (s : ℚ) :
    (t1.netRank = none →
      calculateLocationAdjustment t1 t2 g =
        calculateLocationAdjustment { t1 with netRank := some 100 } t2 g) ∧
      (t2.netRank = none →
        calculateLocationAdjustment t1 t2 g =
          calculateLocationAdjustment t1 { t2 with netRank := some 100 } g) ∧
      (t1.netRank = none →
        calculateExtremeMismatch t1 t2 =
          calculateExtremeMismatch { t1 with netRank := some 150 } t2) ∧
      (t2.netRank = none →
        calculateExtremeMismatch t1 t2 =
          calculateExtremeMismatch t1 { t2 with netRank := some 150 }) ∧
      (t1.fieldGoalPct = none →
        calculateDefenseQualityAdjustment t1 t2 =
          calculateDefenseQualityAdjustment { t1 with fieldGoalPct := some 0.45 } t2) ∧
      (t1.fieldGoalPct = none →
        applyEliteCaps s t1 t2 = applyEliteCaps s { t1 with fieldGoalPct := some 0.45 } t2) := by
  obtain ⟨tm1, pg1, pa1, dr1, fg1, pr1, nr1, ws1, ls1, l51, fh1, hr1, ar1, nu1⟩ := t1
  obtain ⟨tm2, pg2, pa2, dr2, fg2, pr2, nr2, ws2, ls2, l52, fh2, hr2, ar2, nu2⟩ := t2
  refine ⟨?_, ?_, ?_, ?_, ?_, ?_⟩ <;> intro h <;> simp only at h <;> subst h
  · norm_num [calculateLocationAdjustment, jsOr]
  · norm_num [calculateLocationAdjustment, jsOr]
  · norm_num [calculateExtremeMismatch, statementGameBonus, jsOr]
  · norm_num [calculateExtremeMismatch, statementGameBonus, jsOr]
  · norm_num [calculateDefenseQualityAdjustment, classifyOffense, jsOr]
  · norm_num [applyEliteCaps, jsOr]

/-- C10 counterexample: substituting 100 for a missing overall-strength rank
changes the extreme-mismatch stage output (missing gives NET 150, so a gap of
190 and no adjustment; 100 gives a gap of 240 and a plus/minus 8.75 shift),
so that stage does not substitute 100. -/
theorem netRank_default_counterexample :
    sampleMissingNet.netRank = none ∧
      calculateExtremeMismatch sampleMissingNet sampleNet340 ≠
        calculateExtremeMismatch { sampleMissingNet with netRank := some 100 } sampleNet340 := by
  refine ⟨rfl, ?_⟩
  intro hEq
  have ha : (calculateExtremeMismatch sampleMissingNet sampleNet340).adjustments.team1 = 0 := by
    norm_num +decide [calculateExtremeMismatch, statementGameBonus, jsOr, sampleMissingNet,
      sampleNet340, abs_of_nonneg, abs_of_nonpos]
  have hb : (calculateExtremeMismatch { sampleMissingNet with netRank := some 100 }
      sampleNet340).adjustments.team1 = 35 / 4 := by
    norm_num +decide [calculateExtremeMismatch, statementGameBonus, jsOr, sampleMissingNet,
      sampleNet340, abs_of_nonneg, abs_of_nonpos]
  rw [hEq, hb] at ha
  norm_num at ha

/-- C10 witness: the per-stage defaults evaluated on concrete profiles with
the field missing. -/
theorem optional_field_defaults_witness :
    calculateExtremeMismatch sampleMissingNet sampleNet340 =
        calculateExtremeMismatch { sampleMissingNet with netRank := some 150 } sampleNet340 ∧
      calculateLocationAdjustment sampleMissingNet sampleNet340
          { team1Location := Location.home } =
        calculateLocationAdjustment { sampleMissingNet with netRank := some 100 } sampleNet340
          { team1Location := Location.home } ∧
      applyEliteCaps 95 sampleMissingNet sampleNet340 =
        applyEliteCaps 95 { sampleMissingNet with fieldGoalPct := some 0.45 } sampleNet340 :=
  ⟨(optional_field_defaults sampleMissingNet sampleNet340
      { team1Location := Location.home } 95).2.2.1 rfl,
   (optional_field_defaults sampleMissingNet sampleNet340
      { team1Location := Location.home } 95).1 rfl,
   (optional_field_defaults sampleMissingNet sampleNet340
      { team1Location := Location.home } 95).2.2.2.2.2 rfl⟩

end V2
